import Mathlib

set_option maxHeartbeats 1000000

/-!
Shallow embedding of the DNSSEC response-validation layer of knot-resolver,
`lib/layer/validate.c`.

Conventions of the embedding:
* A DNS name (`knot_dname_t`) is a list of numeric labels, leftmost label
  first; the root name is `[]`.  `b` is an ancestor of `a` iff `b` is a
  suffix of `a`.
* Error codes are `Int`, with `kr_error e = -|e|` as in `lib/defines.h`.
* Rdata items are opaque values with an attached signer name (the signer
  field is the one `knot_rrsig_signer_name` extracts from RRSIG rdata).
* The external collaborators (libknot rdataset operations, the crypto
  routines of `lib/dnssec.c`, the NSEC/NSEC3 proof checkers) are not part
  of this file's source; they enter either as small models of their
  documented behaviour (`knot_rdataset_add` deduplicating append) or as
  unconstrained function parameters collected in an `Env` record, so that
  every theorem quantifies over all of their possible behaviours.
* Memory allocation (`mm_alloc`, `knot_rrset_copy`, `knot_dname_copy`)
  is modelled as always succeeding.
-/

/-- A DNS name: numeric labels, leftmost first (`www.example.com` is
`[w, e, c]`); the root is `[]`. -/
abbrev Dname := List Nat

/-- Model of `knot_dname_is_equal`. -/
def knot_dname_is_equal (a b : Dname) : Bool := decide (a = b)

/-- Model of `knot_dname_is_sub sub dom`: `sub` is a strict subdomain of `dom`. -/
def knot_dname_is_sub (sub dom : Dname) : Bool := decide (dom <:+ sub ∧ sub ≠ dom)

/-- Model of `knot_dname_in dom sub`: `sub` is equal to or below `dom`. -/
def knot_dname_in (dom sub : Dname) : Bool := decide (dom <:+ sub)

/-- Model of `knot_dname_labels` (no wire packing in the model). -/
def knot_dname_labels (d : Dname) : Nat := d.length

/-- Number of common leading labels of two (already reversed) label lists. -/
def common_label_count : List Nat → List Nat → Nat
  | a :: as, b :: bs => if a = b then common_label_count as bs + 1 else 0
  | _, _ => 0

/-- Model of `knot_dname_matched_labels`: number of common trailing (root-side)
labels of the two names. -/
def knot_dname_matched_labels (a b : Dname) : Nat :=
  common_label_count a.reverse b.reverse

/-- Model of `knot_wire_next_label`: strip the leftmost label. -/
def knot_wire_next_label (d : Dname) : Dname := d.tail

/-! ### Record types and error codes -/

def KNOT_RRTYPE_NS : Nat := 2
def KNOT_RRTYPE_DS : Nat := 43
def KNOT_RRTYPE_RRSIG : Nat := 46
def KNOT_RRTYPE_DNSKEY : Nat := 48
def KNOT_RRTYPE_NSEC3 : Nat := 50

def KNOT_ANSWER : Nat := 0
def KNOT_AUTHORITY : Nat := 1
def KNOT_ADDITIONAL : Nat := 2

def KNOT_RCODE_NOERROR : Nat := 0
def KNOT_RCODE_NXDOMAIN : Nat := 3

def ENOENT : Int := 2
def EBADF : Int := 9
def EAGAIN : Int := 11
def EBADMSG : Int := 74
/-- The libdnssec `DNSSEC_NOT_FOUND` code (abstract distinct value). -/
def DNSSEC_NOT_FOUND : Int := 10001

/-- Model of `kr_ok()`. -/
def kr_ok : Int := 0

/-- Model of `kr_error(x) = -abs(x)` from `lib/defines.h`. -/
def kr_error (x : Int) : Int := -(x.natAbs : Int)

/-! ### Rdata, RRsets and the libknot rdataset operations -/

/-- One rdata item.  `val` stands for the opaque wire data; `signer` is the
signer-name field that `knot_rrsig_signer_name` reads from RRSIG rdata. -/
structure Rdata where
  val : Nat
  signer : Dname
deriving DecidableEq

/-- Model of `knot_rrset_t`: owner, type and the rdataset. -/
structure RRset where
  owner : Dname
  rtype : Nat
  rrs : List Rdata
deriving DecidableEq

/-- Model of `knot_rrsig_signer_name(&rr->rrs, 0)`: the signer of the first rdata
(responses always carry at least one rdata per record). -/
def knot_rrsig_signer_name (rrs : List Rdata) : Dname :=
  (rrs.headD { val := 0, signer := [] }).signer

/-- Model of `knot_rdataset_add` of libknot (collaborator, not in `src/`): rdatasets
are duplicate-free; an rdata already present is not added again. -/
def knot_rdataset_add (s : List Rdata) (x : Rdata) : List Rdata :=
  if x ∈ s then s else s ++ [x]

/-- Model of `knot_rdataset_merge` of libknot (collaborator, not in `src/`): add each
rdata of the source to the destination. -/
def knot_rdataset_merge (s t : List Rdata) : List Rdata :=
  t.foldl knot_rdataset_add s

/-! ### Ranks, ranked records, flags, zone cuts, queries, packets -/

/-- Model of `KR_VLDRANK_*`. -/
inductive VldRank where
  | initial
  | secure
  | insecure
  | bad
  | mismatch
  | unknown
deriving DecidableEq

/-- Model of `ranked_rr_array_entry_t` (the fields the validator reads/writes). -/
structure RankedEntry where
  rank : VldRank
  yielded : Bool := false
  to_wire : Bool := false
  rr : RRset
deriving DecidableEq

abbrev RankedArray := List RankedEntry

/-- The `QUERY_*` flag bits the validator uses, as a record of booleans. -/
structure QFlags where
  dnssec_want : Bool := false
  dnssec_insecure : Bool := false
  dnssec_bogus : Bool := false
  dnssec_wexpand : Bool := false
  cached : Bool := false
  is_stub : Bool := false
  await_cut : Bool := false
deriving DecidableEq

/-- Model of `struct kr_zonecut` (one node; the `parent` pointer chain is kept
separately as a list of ancestor nodes, nearest first). -/
structure ZoneCut where
  name : Dname
  key : Option RRset
  trust_anchor : Option RRset
deriving DecidableEq

/-- Model of `struct kr_query` (the fields the validator uses).  `cut_parents` is the
`zone_cut.parent` chain, nearest ancestor first.  `has_parent` records
whether `qry->parent` is non-NULL; the parent query's own state is outside
the modelled request. -/
structure Query where
  sname : Dname
  timestamp : Nat
  flags : QFlags
  zone_cut : ZoneCut
  cut_parents : List ZoneCut
  has_parent : Bool
deriving DecidableEq

/-- What `validate` reads from a `knot_pkt_t`. -/
structure Pkt where
  qname : Dname
  qtype : Nat
  rcode : Nat
  aa : Bool
  has_dnssec : Bool
  answer : List RRset
  authority : List RRset
  additional : List RRset
deriving DecidableEq

/-- Model of `section_has_type`. -/
def section_has_type (sec : List RRset) (t : Nat) : Bool :=
  sec.any (fun rr => decide (rr.rtype = t))

/-- Model of `pkt_has_type`. -/
def pkt_has_type (pkt : Pkt) (t : Nat) : Bool :=
  section_has_type pkt.answer t || section_has_type pkt.authority t ||
    section_has_type pkt.additional t

/-- Model of `knot_layer` states.  The source tests them as single values
(`ctx->state == KNOT_STATE_YIELD`, and membership of `{FAIL, CONSUME}`). -/
inductive KState where
  | consume
  | produce
  | done
  | yield
  | fail
deriving DecidableEq

/-! ### The collaborator environment

The read-only inputs of `kr_rrset_validation_ctx_t` that the cryptographic
collaborators consume.  `kr_rrset_validate` and `kr_dnskeys_trusted` report
an error code together with whether they observed wildcard expansion (the
`KR_DNSSEC_VFLG_WEXPAND` bit they or into `vctx->flags`); their results do
not depend on the accumulated flag word, which they only extend. -/
structure VldIn where
  section_id : Nat
  keys : RRset
  zone_name : Dname
  timestamp : Nat
  has_nsec3 : Bool
deriving DecidableEq

/-- The external collaborators of `validate.c` for one response packet,
as unconstrained functions: theorems quantify over every `Env`. -/
structure Env where
  kr_rrset_validate : VldIn → RRset → Int × Bool
  kr_dnskeys_trusted : VldIn → Option RRset → Int × Bool
  kr_nsec_ref_to_unsigned : Int
  kr_nsec3_ref_to_unsigned : Int
  kr_nsec_existence_denial : Dname → Nat → Int
  kr_nsec3_no_data : Dname → Nat → Int
  kr_nsec_name_error_response_check : Dname → Int
  kr_nsec3_name_error_response_check : Dname → Int

/-! ### `validate_section` (lines 89-137) -/

/-- Model of `kr_rrset_validation_ctx_t`: the mutable context one section pass
works with (`flags` is the `KR_DNSSEC_VFLG_WEXPAND` bit). -/
structure VldCtx where
  section_id : Nat
  keys : RRset
  zone_name : Dname
  timestamp : Nat
  has_nsec3 : Bool
  flags : Bool
deriving DecidableEq

/-- Loop body of `validate_section` for one entry: the updated entry,
whether this record counted as an RRSIG sighting (`rrsig_found`), and the
wildcard-expansion flag contribution. -/
def validate_section_step (env : Env) (vin : VldIn) (e : RankedEntry) :
    RankedEntry × Bool × Bool :=
  if e.rank = VldRank.secure ∨ e.yielded = true then (e, false, false)
  else if e.rr.rtype = KNOT_RRTYPE_RRSIG then
    let signer_name := knot_rrsig_signer_name e.rr.rrs
    if knot_dname_is_equal vin.zone_name signer_name = true then
      ({ e with rank := VldRank.secure }, true, false)
    else
      ({ e with rank := VldRank.mismatch }, true, false)
  else if e.rr.rtype = KNOT_RRTYPE_NS ∧ vin.section_id = KNOT_AUTHORITY then
    ({ e with rank := VldRank.secure }, false, false)
  else
    let vres := env.kr_rrset_validate vin e.rr
    if vres.1 = kr_ok then ({ e with rank := VldRank.secure }, false, vres.2)
    else if vres.1 = kr_error ENOENT then
      ({ e with rank := VldRank.insecure }, false, vres.2)
    else if vres.1 = kr_error EBADF then
      ({ e with rank := VldRank.bad }, false, vres.2)
    else ({ e with rank := VldRank.unknown }, false, vres.2)

/-- The `for` loop of `validate_section`: rank every entry, collecting
`rrsig_found` and the wildcard flag. -/
def validate_section_go (env : Env) (vin : VldIn) :
    RankedArray → RankedArray × Bool × Bool
  | [] => ([], false, false)
  | e :: rest =>
    let s := validate_section_step env vin e
    let r := validate_section_go env vin rest
    (s.1 :: r.1, s.2.1 || r.2.1, s.2.2 || r.2.2)

/-- The read-only inputs `validate_section` hands to the collaborators:
line 98 overwrites the context's zone name with the owner of the candidate
DNSKEY RRset before any record is classified. -/
def section_vin (vctx : VldCtx) : VldIn :=
  { section_id := vctx.section_id, keys := vctx.keys,
    zone_name := vctx.keys.owner, timestamp := vctx.timestamp,
    has_nsec3 := vctx.has_nsec3 }

/-- Model of `validate_section` (lines 89-137).  Line 95-98: the context's zone name
is overwritten with the owner of the candidate DNSKEY RRset before the
loop; the in-file callers always supply a non-NULL key.  Returns the
updated entries, the updated context and the result
(`kr_ok` iff some RRSIG was seen, else `kr_error ENOENT`). -/
def validate_section (env : Env) (vctx : VldCtx) (rrs : RankedArray) :
    RankedArray × VldCtx × Int :=
  let r := validate_section_go env (section_vin vctx) rrs
  (r.1,
   { vctx with zone_name := vctx.keys.owner, flags := vctx.flags || r.2.2 },
   if r.2.1 = true then kr_ok else kr_error ENOENT)


/-! ### `validate_records` (lines 139-188) -/

/-- The validation context `validate_records` builds for one section pass
(lines 147-157).  The authority pass (lines 165-171) reuses the struct but
resets `section_id`, restores `zone_name` to `qry->zone_cut.name` and
clears `flags` and `result` — that is, it restores exactly the fields the
answer pass changed, so it is the same context with the other section id. -/
def records_vctx (qry : Query) (key : RRset) (sid : Nat) (hn : Bool) :
    VldCtx :=
  { section_id := sid, keys := key, zone_name := qry.zone_cut.name,
    timestamp := qry.timestamp, has_nsec3 := hn, flags := false }

/-- Model of `validate_records`: run `validate_section` on the answer-selected array,
then on the authority-selected array, combine the results (lines 159-178)
and propagate the answer section's wildcard flag (lines 183-185).
Returns (answer entries, authority entries, query, result). -/
def validate_records (env : Env) (qry : Query)
    (answ_selected auth_selected : RankedArray) (has_nsec3 : Bool) :
    RankedArray × RankedArray × Query × Int :=
  match qry.zone_cut.key with
  | none => (answ_selected, auth_selected, qry, kr_error EBADMSG)
  | some key =>
    let an := validate_section env
      (records_vctx qry key KNOT_ANSWER has_nsec3) answ_selected
    let an_rrsig_not_found := an.2.2 = kr_error ENOENT
    if an.2.2 ≠ kr_ok ∧ ¬an_rrsig_not_found then
      (an.1, auth_selected, qry, an.2.2)
    else
      let an_flags := an.2.1.flags
      let au := validate_section env
        (records_vctx qry key KNOT_AUTHORITY has_nsec3) auth_selected
      if au.2.2 = kr_error ENOENT ∧ ¬an_rrsig_not_found then
        -- authority may legitimately be unsigned: treat as OK
        let qry2 :=
          if an_flags = true then
            { qry with flags := { qry.flags with dnssec_wexpand := true } }
          else qry
        (an.1, au.1, qry2, kr_ok)
      else if au.2.2 ≠ kr_ok then
        (an.1, au.1, qry, au.2.2)
      else
        let qry2 :=
          if an_flags = true then
            { qry with flags := { qry.flags with dnssec_wexpand := true } }
          else qry
        (an.1, au.1, qry2, kr_ok)

/-! ### `validate_keyset` (lines 191-248) -/

/-- The merge-or-replace body of the DNSKEY loop (lines 203-218): replace
the cut's key when absent or owned elsewhere, merge rdata otherwise. -/
def keyset_core (key : Option RRset) (rr : RRset) : Option RRset :=
  match key with
  | none => some rr
  | some k =>
    if knot_dname_is_equal k.owner rr.owner = true then
      some { k with rrs := knot_rdataset_merge k.rrs rr.rrs }
    else
      some rr

/-- One iteration of the DNSKEY-merge loop of `validate_keyset`
(lines 198-219): skip records that are not DNSKEY or not at/below the cut,
otherwise merge or replace. -/
def keyset_step (cut_name : Dname) (key : Option RRset) (rr : RRset) :
    Option RRset :=
  if rr.rtype ≠ KNOT_RRTYPE_DNSKEY ∨ knot_dname_in cut_name rr.owner ≠ true then
    key
  else
    keyset_core key rr

/-- Whether an answer record participates in the DNSKEY merge. -/
def keyset_matches (cut_name : Dname) (rr : RRset) : Bool :=
  decide (rr.rtype = KNOT_RRTYPE_DNSKEY) && knot_dname_in cut_name rr.owner

/-- The whole DNSKEY-merge loop of `validate_keyset`: final key and the
`updated_key` flag. -/
def validate_keyset_merge (cut_name : Dname) (key : Option RRset)
    (an : List RRset) : Option RRset × Bool :=
  (an.foldl (keyset_step cut_name) key,
   an.any (keyset_matches cut_name))

/-- Model of `validate_keyset` (lines 191-248): merge the answer's DNSKEYs into the
cut, then (when something changed and the query is not cached) check the
merged key set against the trust anchor with `kr_dnskeys_trusted`,
discarding the key and propagating the error on failure, and propagating
the wildcard flag on success. -/
def validate_keyset (env : Env) (qry : Query) (pkt : Pkt)
    (has_nsec3 : Bool) : Query × Int :=
  let m := validate_keyset_merge qry.zone_cut.name qry.zone_cut.key pkt.answer
  let qry1 := { qry with zone_cut := { qry.zone_cut with key := m.1 } }
  if m.2 = true ∧ qry.flags.cached ≠ true then
    match m.1 with
    | some k =>
      let vin : VldIn :=
        { section_id := KNOT_ANSWER, keys := k,
          zone_name := qry.zone_cut.name, timestamp := qry.timestamp,
          has_nsec3 := has_nsec3 }
      let t := env.kr_dnskeys_trusted vin qry.zone_cut.trust_anchor
      if t.1 ≠ kr_ok then
        ({ qry1 with zone_cut := { qry1.zone_cut with key := none } }, t.1)
      else if t.2 = true then
        ({ qry1 with flags := { qry1.flags with dnssec_wexpand := true } }, kr_ok)
      else (qry1, kr_ok)
    | none => (qry1, kr_ok)  -- unreachable: an update leaves a key in place
  else (qry1, kr_ok)

/-! ### `update_ds`, `update_parent_keys`, `update_delegation`
    (lines 250-364) -/

/-- Model of `update_ds` (lines 250-274): aggregate every DS record of the section
into one RRset (copy the first, merge rdata of the rest). -/
def update_ds (sec : List RRset) : Option RRset :=
  sec.foldl
    (fun acc rr =>
      if rr.rtype ≠ KNOT_RRTYPE_DS then acc
      else
        match acc with
        | none => some rr
        | some d => some { d with rrs := knot_rdataset_merge d.rrs rr.rrs })
    none

/-- Model of `update_parent_keys` (lines 276-303) mutates only the parent query's
zone cut and flags, which lie outside the modelled request state; its only
failure mode is an allocation failure of `knot_rrset_copy`, modelled as
always succeeding.  It therefore returns `kr_ok`. -/
def update_parent_keys (_qry : Query) (_answer_type : Nat) : Int := kr_ok

/-- The proof-of-non-existence check `update_delegation` performs with an
empty DS aggregate (lines 326-348): NSEC reference-to-unsigned or NSEC
existence-denial of DS without NSEC3; their NSEC3 counterparts with NSEC3,
where a `NOT_FOUND` result denotes opt-out and counts as success. -/
def delegation_proof_result (env : Env) (pkt : Pkt) (has_nsec3 : Bool) : Int :=
  if has_nsec3 ≠ true then
    if pkt.aa ≠ true then env.kr_nsec_ref_to_unsigned
    else env.kr_nsec_existence_denial pkt.qname KNOT_RRTYPE_DS
  else
    let r :=
      if pkt.aa ≠ true then env.kr_nsec3_ref_to_unsigned
      else env.kr_nsec3_no_data pkt.qname KNOT_RRTYPE_DS
    if r = kr_error DNSSEC_NOT_FOUND then kr_ok else r

/-- Model of `update_delegation` (lines 305-364).  Pick the section to inspect
(authority on a referral, answer on an authoritative DS answer, else a
no-op); aggregate the DS records; with an empty aggregate check the
appropriate proof of non-existence, going insecure on success and bogus on
failure; with a DS aggregate extend the trust anchor. -/
def update_delegation (env : Env) (qry : Query) (pkt : Pkt)
    (has_nsec3 : Bool) : Query × Int :=
  if pkt.aa ≠ true ∨ (pkt.aa = true ∧ pkt.qtype = KNOT_RRTYPE_DS) then
    match update_ds (if pkt.aa ≠ true then pkt.authority else pkt.answer) with
    | none =>
      if delegation_proof_result env pkt has_nsec3 ≠ kr_ok then
        ({ qry with flags := { qry.flags with dnssec_bogus := true } },
         delegation_proof_result env pkt has_nsec3)
      else
        ({ qry with flags := { qry.flags with dnssec_want := false,
                                              dnssec_insecure := true } }, kr_ok)
    | some new_ds =>
      ({ qry with zone_cut := { qry.zone_cut with trust_anchor := some new_ds } },
       kr_ok)
  else
    (qry, kr_ok)

/-! ### Signer search and re-entry (lines 366-511) -/

/-- Model of `find_first_signer` (lines 366-379): the signer name of the first
non-yielded, still-INITIAL RRSIG entry. -/
def find_first_signer : RankedArray → Option Dname
  | [] => none
  | e :: rest =>
    if e.yielded = true ∨ e.rank ≠ VldRank.initial then find_first_signer rest
    else if e.rr.rtype = KNOT_RRTYPE_RRSIG then
      some (knot_rrsig_signer_name e.rr.rrs)
    else find_first_signer rest

/-- Model of `signature_authority` (lines 381-388). -/
def signature_authority (answ_selected auth_selected : RankedArray) :
    Option Dname :=
  match find_first_signer answ_selected with
  | some s => some s
  | none => find_first_signer auth_selected

/-- Model of `rrsig_not_found` (lines 390-443), the missing-RRSIG handler.

A record owned by the cut itself, or a second pass (state already YIELD),
is unexplainable: set BOGUS and fail.  Otherwise strip
`labels(owner) - matched_labels - 1` labels to obtain the new cut start.
`skip_labels` is a C `int`: when the owner is an ancestor of the cut name
it is `-1` and `while (skip_labels--)` walks `knot_wire_next_label` past
the root of the name — the embedding returns `none` for that unterminating
execution.  Otherwise either nest a fresh cut below the current one
(keeping key and trust anchor, pushing the old cut as parent, setting
AWAIT_CUT), or reinitialize at an ancestor found in the parent chain
(copying its key and trust), or reinitialize blank with AWAIT_CUT. -/
def rrsig_not_found (state : KState) (qry : Query) (rr : RRset) :
    Option (KState × Query) :=
  if knot_dname_is_equal rr.owner qry.zone_cut.name = true ∨
      state = KState.yield then
    some (KState.fail,
      { qry with flags := { qry.flags with dnssec_bogus := true } })
  else
    let owner_labels : Int := knot_dname_labels rr.owner
    let matched : Int := knot_dname_matched_labels qry.zone_cut.name rr.owner
    let skip_labels : Int := owner_labels - matched - 1
    if skip_labels < 0 then none
    else
      let new_cut_name_start := rr.owner.drop skip_labels.toNat
      if knot_dname_is_sub new_cut_name_start qry.zone_cut.name = true then
        some (KState.yield,
          { qry with
              zone_cut := { name := new_cut_name_start,
                            key := qry.zone_cut.key,
                            trust_anchor := qry.zone_cut.trust_anchor },
              cut_parents := qry.zone_cut :: qry.cut_parents,
              flags := { qry.flags with await_cut := true } })
      else
        match qry.cut_parents.find?
            (fun c => knot_dname_is_equal new_cut_name_start c.name) with
        | some anc =>
          some (KState.yield,
            { qry with
                zone_cut := { name := new_cut_name_start,
                              key := anc.key,
                              trust_anchor := anc.trust_anchor },
                cut_parents := [] })
        | none =>
          some (KState.yield,
            { qry with
                zone_cut := { name := new_cut_name_start,
                              key := none, trust_anchor := none },
                cut_parents := [],
                flags := { qry.flags with await_cut := true } })

/-- First loop of `check_validation_result` (lines 450-461): the first
non-yielded MISMATCH entry, if any. -/
def cvr_find_mismatch : RankedArray → Option RankedEntry
  | [] => none
  | e :: rest =>
    if e.yielded = true then cvr_find_mismatch rest
    else if e.rank = VldRank.mismatch then some e
    else cvr_find_mismatch rest

/-- Second loop of `check_validation_result` (lines 463-476): the first
non-yielded INSECURE entry goes to `rrsig_not_found`; any other
non-SECURE rank is bogus; all-SECURE is DONE. -/
def cvr_problems (state : KState) (qry : Query) :
    RankedArray → Option (KState × Query)
  | [] => some (KState.done, qry)
  | e :: rest =>
    if e.yielded = true then cvr_problems state qry rest
    else if e.rank = VldRank.insecure then rrsig_not_found state qry e.rr
    else if e.rank ≠ VldRank.secure then
      some (KState.fail,
        { qry with flags := { qry.flags with dnssec_bogus := true } })
    else cvr_problems state qry rest

/-- Model of `check_validation_result` (lines 445-478). -/
def check_validation_result (state : KState) (qry : Query)
    (arr : RankedArray) : Option (KState × Query) :=
  match cvr_find_mismatch arr with
  | some e =>
    some (KState.yield,
      { qry with zone_cut :=
          { qry.zone_cut with name := knot_rrsig_signer_name e.rr.rrs } })
  | none => cvr_problems state qry arr

/-- Model of `check_signer` (lines 480-511): with a trust anchor set and a signature
authority that is absent or different from it, fail if already yielded,
else advance/ascend the cut toward the signer and yield. -/
def check_signer (state : KState) (qry : Query)
    (answ_selected auth_selected : RankedArray) : KState × Query :=
  let ta_name := qry.zone_cut.trust_anchor.map RRset.owner
  let signer := signature_authority answ_selected auth_selected
  match ta_name with
  | none => (KState.done, qry)
  | some ta =>
    if signer = none ∨ signer ≠ some ta then
      if state = KState.yield then (KState.fail, qry)
      else
        match signer with
        | none =>
          -- not a DNSSEC-signed response: ask parent for DS, keep the cut
          (KState.yield, qry)
        | some s =>
          if knot_dname_is_sub s qry.zone_cut.name = true then
            (KState.yield,
             { qry with zone_cut := { qry.zone_cut with name := s } })
          else if knot_dname_is_equal s qry.zone_cut.name ≠ true then
            match qry.cut_parents with
            | p :: rest =>
              (KState.yield,
               { qry with zone_cut := { p with name := s },
                          cut_parents := rest })
            | [] =>
              (KState.yield,
               { qry with zone_cut := { qry.zone_cut with name := s },
                          flags := { qry.flags with await_cut := true } })
          else (KState.yield, qry)
    else (KState.done, qry)

/-! ### The layer entry point `validate` (lines 513-653) -/

/-- The per-request state `validate` reads and mutates: the current query
and the two ranked-record arrays of `struct kr_request`. -/
structure RState where
  qry : Query
  answ_selected : RankedArray
  auth_selected : RankedArray
deriving DecidableEq

/-- Model of `kr_ranked_rrarray_set_wire(arr, true, qry->id)` (collaborator): mark
entries for inclusion in the final answer.  Ranks and `yielded` are
untouched. -/
def set_wire_all (arr : RankedArray) : RankedArray :=
  arr.map (fun e => { e with to_wire := true })

/-- Lines 541-562: the authoritative-DNSKEY stage.  `Except.error` carries
an early return of `validate`, `Except.ok` the query to continue with.
The signer check runs only on non-cached queries and its non-DONE verdict
returns early; otherwise `validate_keyset` runs on the (possibly updated)
query.  (`check_signer` leaves the query untouched when it reports DONE,
so using its query either way is the source's behaviour.) -/
def dnskey_stage (env : Env) (pkt : Pkt) (state : KState) (has_nsec3 : Bool)
    (answ_selected auth_selected : RankedArray) (qry : Query) :
    Except (KState × Query) Query :=
  if pkt.aa = true ∧ pkt.qtype = KNOT_RRTYPE_DNSKEY then
    if qry.flags.cached ≠ true ∧
        (check_signer state qry answ_selected auth_selected).1 ≠ KState.done then
      Except.error (check_signer state qry answ_selected auth_selected)
    else
      let qry1 :=
        if qry.flags.cached ≠ true then
          (check_signer state qry answ_selected auth_selected).2
        else qry
      let vk := validate_keyset env qry1 pkt has_nsec3
      if vk.2 = kr_error EAGAIN then Except.error (KState.yield, vk.1)
      else if vk.2 ≠ kr_ok then
        Except.error (KState.fail,
          { vk.1 with flags := { vk.1.flags with dnssec_bogus := true } })
      else Except.ok vk.1
  else Except.ok qry

/-- Lines 564-577: the NXDOMAIN negative-proof stage.  `Except.error`
carries the failed query (the caller returns FAIL). -/
def nxdomain_check (env : Env) (pkt : Pkt) (has_nsec3 : Bool) (qry : Query) :
    Except Query Query :=
  if qry.flags.cached ≠ true ∧ pkt.rcode = KNOT_RCODE_NXDOMAIN then
    let ret :=
      if has_nsec3 ≠ true then env.kr_nsec_name_error_response_check qry.sname
      else env.kr_nsec3_name_error_response_check qry.sname
    if ret ≠ kr_ok then
      Except.error { qry with flags := { qry.flags with dnssec_bogus := true } }
    else Except.ok qry
  else Except.ok qry

/-- Lines 582-606: the NODATA negative-proof stage for a non-cached
authoritative NOERROR answer with an empty answer section.  An NSEC3
`NOT_FOUND` is an opt-out: clear WANT, set INSECURE and continue; any other
failure is bogus (`Except.error`, the caller returns FAIL). -/
def nodata_check (env : Env) (pkt : Pkt) (has_nsec3 : Bool) (qry : Query) :
    Except Query Query :=
  if qry.flags.cached ≠ true ∧ pkt.rcode = KNOT_RCODE_NOERROR ∧
      pkt.answer.length = 0 ∧ pkt.aa = true then
    let ret :=
      if has_nsec3 ≠ true then
        env.kr_nsec_existence_denial pkt.qname pkt.qtype
      else env.kr_nsec3_no_data pkt.qname pkt.qtype
    if ret ≠ kr_ok then
      if has_nsec3 = true ∧ ret = kr_error DNSSEC_NOT_FOUND then
        Except.ok { qry with flags :=
          { qry.flags with dnssec_want := false, dnssec_insecure := true } }
      else
        Except.error { qry with flags := { qry.flags with dnssec_bogus := true } }
    else Except.ok qry
  else Except.ok qry

/-- Lines 634-652, the tail of `validate` after record validation: copy the
wildcard flag to the authority section of the final query, update the
delegation (returning FAIL when it reports an error), propagate keys to a
parent query (never failing in this model), and finish DONE. -/
def validate_finish (env : Env) (pkt : Pkt) (has_nsec3 : Bool)
    (st : RState) : KState × RState :=
  let st1 :=
    if st.qry.has_parent ≠ true ∧ st.qry.flags.dnssec_wexpand = true then
      { st with auth_selected := set_wire_all st.auth_selected }
    else st
  let ud := update_delegation env st1.qry pkt has_nsec3
  if ud.2 ≠ kr_ok then (KState.fail, { st1 with qry := ud.1 })
  else
    let st2 := { st1 with qry := ud.1 }
    if st2.qry.has_parent = true then
      if update_parent_keys st2.qry pkt.qtype ≠ kr_ok then (KState.fail, st2)
      else (KState.done, st2)
    else (KState.done, st2)

/-- Model of `validate` (lines 513-653), the layer's `consume` entry point.
Returns `none` on the one unterminating path of the source
(`rrsig_not_found` with a negative `skip_labels`), and otherwise the
layer state together with the updated request state. -/
def validate (env : Env) (pkt : Pkt) (state : KState) (st : RState) :
    Option (KState × RState) :=
  let qry := st.qry
  -- line 519: ignore faulty or unprocessed responses
  if state = KState.fail ∨ state = KState.consume then some (state, st)
  -- line 525: pass-through unless secure answers are wanted
  else if qry.flags.dnssec_want ≠ true ∨ qry.flags.is_stub = true then
    some (state, st)
  else
    -- lines 529-534
    let use_signatures := pkt.qtype ≠ KNOT_RRTYPE_RRSIG
    if qry.flags.cached ≠ true ∧ pkt.has_dnssec ≠ true ∧ ¬use_signatures then
      some (KState.fail,
        { st with qry :=
            { qry with flags := { qry.flags with dnssec_bogus := true } } })
    else
      let has_nsec3 := pkt_has_type pkt KNOT_RRTYPE_NSEC3
      match dnskey_stage env pkt state has_nsec3
          st.answ_selected st.auth_selected qry with
      | Except.error e => some (e.1, { st with qry := e.2 })
      | Except.ok qry1 =>
        match nxdomain_check env pkt has_nsec3 qry1 with
        | Except.error q => some (KState.fail, { st with qry := q })
        | Except.ok qry2 =>
          match nodata_check env pkt has_nsec3 qry2 with
          | Except.error q => some (KState.fail, { st with qry := q })
          | Except.ok qry3 =>
            if qry3.flags.cached ≠ true then
              let vr := validate_records env qry3
                st.answ_selected st.auth_selected has_nsec3
              let st1 : RState :=
                { qry := vr.2.2.1, answ_selected := vr.1,
                  auth_selected := vr.2.1 }
              if vr.2.2.2 = kr_error ENOENT then
                -- answer contains no RRSIGs: ask parent for DS
                some (KState.yield, st1)
              else if vr.2.2.2 ≠ kr_ok then
                some (KState.fail,
                  { st1 with qry := { st1.qry with flags :=
                      { st1.qry.flags with dnssec_bogus := true } } })
              else
                match check_validation_result state st1.qry
                    st1.answ_selected with
                | none => none
                | some r1 =>
                  if r1.1 ≠ KState.done then
                    some (r1.1, { st1 with qry := r1.2 })
                  else
                    match check_validation_result state r1.2
                        st1.auth_selected with
                    | none => none
                    | some r2 =>
                      if r2.1 ≠ KState.done then
                        some (r2.1, { st1 with qry := r2.2 })
                      else
                        some (validate_finish env pkt has_nsec3
                          { st1 with qry := r2.2 })
            else
              some (validate_finish env pkt has_nsec3 { st with qry := qry3 })

/-! ### Concrete fixtures used by witnesses and counterexamples -/

/-- A benign collaborator environment: every proof and verification
succeeds, no wildcard expansion is observed. -/
def envOk : Env :=
  { kr_rrset_validate := fun _ _ => (kr_ok, false),
    kr_dnskeys_trusted := fun _ _ => (kr_ok, false),
    kr_nsec_ref_to_unsigned := kr_ok,
    kr_nsec3_ref_to_unsigned := kr_ok,
    kr_nsec_existence_denial := fun _ _ => kr_ok,
    kr_nsec3_no_data := fun _ _ => kr_ok,
    kr_nsec_name_error_response_check := fun _ => kr_ok,
    kr_nsec3_name_error_response_check := fun _ => kr_ok }

/-- The DNSKEY RRset of the fixture zone `[5]`. -/
def keyRR : RRset :=
  { owner := [5], rtype := KNOT_RRTYPE_DNSKEY, rrs := [{ val := 7, signer := [] }] }

/-- An RRSIG record signed by the fixture zone `[5]`. -/
def sigRR : RRset :=
  { owner := [5], rtype := KNOT_RRTYPE_RRSIG, rrs := [{ val := 1, signer := [5] }] }

/-- An uncached query that wants DNSSEC, with a keyed cut at `[5]`. -/
def qryW : Query :=
  { sname := [5], timestamp := 0,
    flags := { dnssec_want := true },
    zone_cut := { name := [5], key := some keyRR, trust_anchor := none },
    cut_parents := [], has_parent := false }

/-- An authoritative NOERROR answer for `[5] A` without the DO bit. -/
def pktNoDO : Pkt :=
  { qname := [5], qtype := 1, rcode := KNOT_RCODE_NOERROR, aa := true,
    has_dnssec := false, answer := [], authority := [], additional := [] }


/-- Additional fixtures. -/
def aRR : RRset := { owner := [5], rtype := 1, rrs := [{ val := 2, signer := [] }] }

/-- An RRSIG whose signer `[7]` lies outside the fixture zone. -/
def sigBad : RRset :=
  { owner := [5], rtype := KNOT_RRTYPE_RRSIG, rrs := [{ val := 6, signer := [7] }] }

/-- An A record at `[9,5]`, strictly below the fixture cut `[5]`. -/
def subRR : RRset := { owner := [9, 5], rtype := 1, rrs := [{ val := 8, signer := [] }] }

lemma kr_error_ENOENT_ne_ok : kr_error ENOENT ≠ kr_ok := by decide

/-! ## C1 -/

/-- Claim C1: (the claim does not hold; the code contradicts its own comment).
The claim: with DNSSEC_WANT, not stub, not cached, query type not RRSIG and
no DNSSEC OK indicator, `consume` returns FAIL and sets BOGUS.  The code's
guard (line 530) tests `!use_signatures`, i.e. it fails only when the query
type *is* RRSIG; at the claim's input it continues validating and here
finishes DONE without BOGUS. -/
theorem C1_code_behavior :
    (validate envOk pktNoDO KState.produce
        { qry := qryW,
          answ_selected := [{ rank := VldRank.initial, rr := sigRR }],
          auth_selected := [] }).map
      (fun r => (r.1, r.2.qry.flags.dnssec_bogus)) =
    some (KState.done, false) ∧
    qryW.flags.dnssec_want = true ∧ qryW.flags.is_stub = false ∧
    qryW.flags.cached = false ∧ pktNoDO.qtype ≠ KNOT_RRTYPE_RRSIG ∧
    pktNoDO.has_dnssec = false := by decide

/-! ## C3 -/

/-- Claim C3: is false as stated: here the answer pass reports no RRSIGs
(`kr_error ENOENT`), the authority pass does find RRSIGs (`kr_ok`), yet
`validate_records` returns `kr_ok`, not the claimed `kr_error ENOENT`. -/
theorem C3_counterexample :
    (validate_section envOk (records_vctx qryW keyRR KNOT_ANSWER false)
        [{ rank := VldRank.initial, rr := aRR }]).2.2 = kr_error ENOENT ∧
    (validate_section envOk (records_vctx qryW keyRR KNOT_AUTHORITY false)
        [{ rank := VldRank.initial, rr := sigRR }]).2.2 = kr_ok ∧
    (validate_records envOk qryW
        [{ rank := VldRank.initial, rr := aRR }]
        [{ rank := VldRank.initial, rr := sigRR }] false).2.2.2 = kr_ok ∧
    kr_ok ≠ kr_error ENOENT := by decide

/-- Claim C3, amended: When the answer-section pass reports that no RRSIGs
were found, `validate_records` returns whatever the authority-section pass
returns: `kr_error ENOENT` (propagated to the caller, which yields to fetch
the parent DS) exactly when the authority pass also found no RRSIGs, and
`kr_ok` when the authority pass did find RRSIGs. -/
theorem C3_result (env : Env) (qry : Query) (answ auth : RankedArray)
    (hn : Bool) (key : RRset) (hkey : qry.zone_cut.key = some key)
    (h1 : (validate_section env (records_vctx qry key KNOT_ANSWER hn) answ).2.2 =
      kr_error ENOENT) :
    (validate_records env qry answ auth hn).2.2.2 =
      (validate_section env (records_vctx qry key KNOT_AUTHORITY hn) auth).2.2 := by
  by_cases h2 :
      (validate_section env (records_vctx qry key KNOT_AUTHORITY hn) auth).2.2 = kr_ok
  · simp [validate_records, hkey, h1, h2, kr_error_ENOENT_ne_ok]
  · by_cases h3 :
        (validate_section env (records_vctx qry key KNOT_AUTHORITY hn) auth).2.2 =
          kr_error ENOENT
    · simp [validate_records, hkey, h1, h2, h3, kr_error_ENOENT_ne_ok]
    · simp [validate_records, hkey, h1, h2, h3, kr_error_ENOENT_ne_ok]

/-- Witness for `C3_result`: the counterexample scenario, where the
authority pass returns `kr_ok`. -/
theorem C3_result_witness :
    (validate_records envOk qryW
        [{ rank := VldRank.initial, rr := aRR }]
        [{ rank := VldRank.initial, rr := sigRR }] false).2.2.2 =
      (validate_section envOk (records_vctx qryW keyRR KNOT_AUTHORITY false)
        [{ rank := VldRank.initial, rr := sigRR }]).2.2 :=
  C3_result envOk qryW _ _ false keyRR (by decide) (by decide)

/-! ## C6 -/

lemma cvr_find_mismatch_eq_findP (arr : RankedArray) :
    cvr_find_mismatch arr =
      arr.find? (fun x => !x.yielded && decide (x.rank = VldRank.mismatch)) := by
  induction arr with
  | nil => rfl
  | cons e rest ih =>
    by_cases hy : e.yielded = true
    · simp [cvr_find_mismatch, hy, List.find?, ih]
    · by_cases hr : e.rank = VldRank.mismatch
      · simp [cvr_find_mismatch, hy, hr, List.find?]
      · simp [cvr_find_mismatch, hy, hr, List.find?, ih]

/-- Claim C6: In `check_validation_result`, the first non-yielded record (in
array order) with rank MISMATCH determines the outcome: its RRSIG signer
name is copied into `qry.zone_cut.name` and YIELD is returned, before any
other rank problem anywhere in the array is considered. -/
theorem C6_first_mismatch (state : KState) (qry : Query) (arr : RankedArray)
    (e : RankedEntry)
    (h : arr.find? (fun x => !x.yielded && decide (x.rank = VldRank.mismatch)) =
      some e) :
    check_validation_result state qry arr =
      some (KState.yield,
        { qry with zone_cut :=
            { qry.zone_cut with name := knot_rrsig_signer_name e.rr.rrs } }) := by
  unfold check_validation_result
  rw [cvr_find_mismatch_eq_findP, h]

/-- Witness for `C6_first_mismatch`: a BAD record precedes the MISMATCH
record, yet the MISMATCH one decides (YIELD with its signer). -/
theorem C6_first_mismatch_witness :
    check_validation_result KState.produce qryW
      [{ rank := VldRank.bad, rr := aRR },
       { rank := VldRank.mismatch, rr := sigBad }] =
      some (KState.yield,
        { qryW with zone_cut := { qryW.zone_cut with name := [7] } }) :=
  C6_first_mismatch KState.produce qryW _
    { rank := VldRank.mismatch, rr := sigBad } (by decide)

/-! ## C7 -/

/-- A query whose cut sits at `[0,1]`; the record `rrAnc` below is owned at
the strict ancestor `[1]` of that cut. -/
def qry7 : Query :=
  { sname := [0, 1], timestamp := 0, flags := { dnssec_want := true },
    zone_cut := { name := [0, 1], key := none, trust_anchor := none },
    cut_parents := [], has_parent := false }

/-- A record owned at `[1]`, a strict ancestor of `qry7`'s cut name. -/
def rrAnc : RRset := { owner := [1], rtype := 1, rrs := [{ val := 4, signer := [] }] }

/-- Claim C7: is false as stated: for an INSECURE record owned at a strict
ancestor of the cut name (here owner `[1]`, cut `[0,1]`), the handler
neither fails nor yields — `skip_labels` is `-1` and `while (skip_labels--)`
walks `knot_wire_next_label` past the root without terminating (modelled as
`none`). -/
theorem C7_counterexample : rrsig_not_found KState.produce qry7 rrAnc = none := by
  decide

/-- The new cut start `rrsig_not_found` computes (lines 404-409) when the
record owner has more labels than the cut name matches. -/
def new_cut_start (qry : Query) (rr : RRset) : Dname :=
  rr.owner.drop (knot_dname_labels rr.owner -
    knot_dname_matched_labels qry.zone_cut.name rr.owner - 1)

/-- Claim C7, amended: For every record handed to the missing-RRSIG handler:
if its owner equals the current cut's name or the layer state is already
YIELD, the handler sets BOGUS and returns FAIL; otherwise — provided the
owner is not a strict ancestor of the cut name (more owner labels than
matched ones), which the code does not terminate on — it returns YIELD,
with AWAIT_CUT set exactly when the new cut start is a strict subname of
the current cut or no ancestor cut with that name exists (the query's
AWAIT_CUT assumed clear on entry). -/
theorem C7_rrsig_not_found (state : KState) (qry : Query) (rr : RRset) :
    ((knot_dname_is_equal rr.owner qry.zone_cut.name = true ∨
        state = KState.yield) →
      rrsig_not_found state qry rr =
        some (KState.fail,
          { qry with flags := { qry.flags with dnssec_bogus := true } })) ∧
    (knot_dname_is_equal rr.owner qry.zone_cut.name ≠ true →
      state ≠ KState.yield →
      qry.flags.await_cut = false →
      knot_dname_matched_labels qry.zone_cut.name rr.owner <
        knot_dname_labels rr.owner →
      ∃ q2, rrsig_not_found state qry rr = some (KState.yield, q2) ∧
        (q2.flags.await_cut = true ↔
          (knot_dname_is_sub (new_cut_start qry rr) qry.zone_cut.name = true ∨
           qry.cut_parents.find?
             (fun c => knot_dname_is_equal (new_cut_start qry rr) c.name) =
             none))) := by
  constructor
  · intro h
    unfold rrsig_not_found
    rw [if_pos h]
  · intro h1 h2 hac hm
    unfold rrsig_not_found
    rw [if_neg (not_or.mpr ⟨h1, h2⟩)]
    have hskip : ¬ ((knot_dname_labels rr.owner : Int) -
        (knot_dname_matched_labels qry.zone_cut.name rr.owner : Int) - 1 < 0) := by
      omega
    rw [if_neg hskip]
    have htn : ((knot_dname_labels rr.owner : Int) -
        (knot_dname_matched_labels qry.zone_cut.name rr.owner : Int) - 1).toNat =
        knot_dname_labels rr.owner -
          knot_dname_matched_labels qry.zone_cut.name rr.owner - 1 := by
      omega
    rw [htn]
    have hncs : rr.owner.drop (knot_dname_labels rr.owner -
        knot_dname_matched_labels qry.zone_cut.name rr.owner - 1) =
        new_cut_start qry rr := rfl
    rw [hncs]
    by_cases hsub :
        knot_dname_is_sub (new_cut_start qry rr) qry.zone_cut.name = true
    · rw [if_pos hsub]
      exact ⟨_, rfl, by simp [hsub]⟩
    · rw [if_neg hsub]
      cases hf : qry.cut_parents.find?
          (fun c => knot_dname_is_equal (new_cut_start qry rr) c.name) with
      | some anc => exact ⟨_, rfl, by simp [hsub, hf, hac]⟩
      | none => exact ⟨_, rfl, by simp [hsub, hf]⟩

/-- Witness for `C7_rrsig_not_found`: the FAIL branch on a yielded state,
and the YIELD branch for a record below the cut (AWAIT_CUT set). -/
theorem C7_rrsig_not_found_witness :
    rrsig_not_found KState.yield qryW sigRR =
      some (KState.fail,
        { qryW with flags := { qryW.flags with dnssec_bogus := true } }) ∧
    (∃ q2, rrsig_not_found KState.produce qryW subRR =
        some (KState.yield, q2) ∧
      (q2.flags.await_cut = true ↔
        (knot_dname_is_sub (new_cut_start qryW subRR) qryW.zone_cut.name = true ∨
         qryW.cut_parents.find?
           (fun c => knot_dname_is_equal (new_cut_start qryW subRR) c.name) =
           none))) :=
  ⟨(C7_rrsig_not_found KState.yield qryW sigRR).1 (Or.inr rfl),
   (C7_rrsig_not_found KState.produce qryW subRR).2 (by decide) (by decide)
     (by decide) (by decide)⟩

/-! ## C4 -/

lemma kr_error_NOT_FOUND_ne_ok : kr_error DNSSEC_NOT_FOUND ≠ kr_ok := by decide

/-- On a referral (or authoritative DS answer) whose inspected section has
no DS records, `update_delegation` either goes insecure (clear WANT, set
INSECURE, return `kr_ok`) or sets BOGUS and returns the proof error. -/
lemma update_delegation_no_ds (env : Env) (qry : Query) (pkt : Pkt) (hn : Bool)
    (hsec : pkt.aa ≠ true ∨ (pkt.aa = true ∧ pkt.qtype = KNOT_RRTYPE_DS))
    (hds : update_ds (if pkt.aa ≠ true then pkt.authority else pkt.answer) =
      none) :
    (update_delegation env qry pkt hn =
       ({ qry with flags := { qry.flags with dnssec_want := false,
                                             dnssec_insecure := true } },
        kr_ok)) ∨
    ((update_delegation env qry pkt hn).1 =
       { qry with flags := { qry.flags with dnssec_bogus := true } } ∧
     (update_delegation env qry pkt hn).2 ≠ kr_ok) := by
  unfold update_delegation
  rw [if_pos hsec, hds]
  by_cases hret : delegation_proof_result env pkt hn = kr_ok
  · rw [if_neg (by simpa using hret)]
    exact Or.inl rfl
  · rw [if_pos hret]
    exact Or.inr ⟨rfl, hret⟩

/-- Projections of `validate_finish`: the resulting query is whatever
`update_delegation` produced, and the verdict is FAIL exactly when
`update_delegation` reported an error. -/
lemma validate_finish_proj (env : Env) (pkt : Pkt) (hn : Bool) (st : RState) :
    (validate_finish env pkt hn st).2.qry =
      (update_delegation env st.qry pkt hn).1 ∧
    ((validate_finish env pkt hn st).1 = KState.fail ↔
      (update_delegation env st.qry pkt hn).2 ≠ kr_ok) := by
  by_cases hud : (update_delegation env st.qry pkt hn).2 = kr_ok <;>
    simp [validate_finish, update_parent_keys, hud] <;>
    split_ifs <;> simp_all

/-- Claim C4: For every non-cached referral (or authoritative DS answer) whose
inspected section yields an empty DS aggregate, after `update_delegation`
either the query's flags contain INSECURE and no longer WANT, or they
contain BOGUS and `consume` returns FAIL.  `validate_finish` is the tail of
`validate` (lines 634-652) through which every execution of
`update_delegation` flows, so its verdict is the verdict of `consume`. -/
theorem C4_delegation (env : Env) (pkt : Pkt) (hn : Bool) (st : RState)
    (hc : st.qry.flags.cached ≠ true)
    (hsec : pkt.aa ≠ true ∨ (pkt.aa = true ∧ pkt.qtype = KNOT_RRTYPE_DS))
    (hds : update_ds (if pkt.aa ≠ true then pkt.authority else pkt.answer) =
      none) :
    ((validate_finish env pkt hn st).2.qry.flags.dnssec_insecure = true ∧
     (validate_finish env pkt hn st).2.qry.flags.dnssec_want = false) ∨
    ((validate_finish env pkt hn st).2.qry.flags.dnssec_bogus = true ∧
     (validate_finish env pkt hn st).1 = KState.fail) := by
  obtain ⟨hq, hfail⟩ := validate_finish_proj env pkt hn st
  rcases update_delegation_no_ds env st.qry pkt hn hsec hds with h | ⟨h1, h2⟩
  · left
    rw [hq, h]
    exact ⟨rfl, rfl⟩
  · right
    rw [hq, h1]
    exact ⟨rfl, hfail.mpr h2⟩

/-- A referral packet (no AA) whose authority section carries no DS. -/
def pktRefNoDS : Pkt :=
  { qname := [9, 5], qtype := 1, rcode := KNOT_RCODE_NOERROR, aa := false,
    has_dnssec := true, answer := [], authority := [aRR], additional := [] }

/-- Witness for `C4_delegation`: with `envOk` the NSEC referral-to-unsigned
proof succeeds, so the query goes INSECURE and loses WANT. -/
theorem C4_delegation_witness :
    ((validate_finish envOk pktRefNoDS false
        { qry := qryW, answ_selected := [],
          auth_selected := [] }).2.qry.flags.dnssec_insecure = true ∧
     (validate_finish envOk pktRefNoDS false
        { qry := qryW, answ_selected := [],
          auth_selected := [] }).2.qry.flags.dnssec_want = false) ∨
    ((validate_finish envOk pktRefNoDS false
        { qry := qryW, answ_selected := [],
          auth_selected := [] }).2.qry.flags.dnssec_bogus = true ∧
     (validate_finish envOk pktRefNoDS false
        { qry := qryW, answ_selected := [], auth_selected := [] }).1 =
       KState.fail) :=
  C4_delegation envOk pktRefNoDS false
    { qry := qryW, answ_selected := [], auth_selected := [] }
    (by decide) (by decide) (by decide)

/-! ## C5 -/

/-- Claim C5: For non-cached responses with NSEC3:
(1) when the NSEC3 no-data proof for an authoritative NOERROR answer with
an empty answer section reports `NOT_FOUND`, the NODATA stage clears WANT
and sets INSECURE and continues (`Except.ok`, no FAIL from this check);
(2) when the NSEC3 name-error proof for an NXDOMAIN answer fails for any
reason (including `NOT_FOUND`), `consume` sets BOGUS and returns FAIL. -/
theorem C5_nsec3_opt_out :
    (∀ (env : Env) (pkt : Pkt) (qry : Query),
      qry.flags.cached ≠ true → pkt.rcode = KNOT_RCODE_NOERROR →
      pkt.answer.length = 0 → pkt.aa = true →
      env.kr_nsec3_no_data pkt.qname pkt.qtype = kr_error DNSSEC_NOT_FOUND →
      nodata_check env pkt true qry =
        Except.ok { qry with flags :=
          { qry.flags with dnssec_want := false, dnssec_insecure := true } }) ∧
    (∀ (env : Env) (pkt : Pkt) (state : KState) (st : RState),
      st.qry.flags.dnssec_want = true → st.qry.flags.is_stub ≠ true →
      st.qry.flags.cached ≠ true → state = KState.produce →
      pkt.has_dnssec = true →
      ¬(pkt.aa = true ∧ pkt.qtype = KNOT_RRTYPE_DNSKEY) →
      pkt.rcode = KNOT_RCODE_NXDOMAIN →
      pkt_has_type pkt KNOT_RRTYPE_NSEC3 = true →
      env.kr_nsec3_name_error_response_check st.qry.sname ≠ kr_ok →
      validate env pkt state st =
        some (KState.fail,
          { st with qry := { st.qry with flags :=
              { st.qry.flags with dnssec_bogus := true } } })) := by
  constructor
  · intro env pkt qry hc hrc hlen haa hret
    simp [nodata_check, hc, hrc, hlen, haa, hret, kr_error_NOT_FOUND_ne_ok]
  · intro env pkt state st hw hst hc hstate hdo hnd hrc hn3 hne
    subst hstate
    simp [validate, hw, hst, hdo, dnskey_stage, hnd, nxdomain_check, hc, hrc,
      hn3, hne]

/-- An environment whose NSEC3 routines report `NOT_FOUND` (opt-out). -/
def envNF : Env :=
  { envOk with
      kr_nsec3_no_data := fun _ _ => kr_error DNSSEC_NOT_FOUND,
      kr_nsec3_name_error_response_check := fun _ => kr_error DNSSEC_NOT_FOUND }

/-- An NSEC3 record. -/
def nsec3RR : RRset :=
  { owner := [5], rtype := KNOT_RRTYPE_NSEC3, rrs := [{ val := 11, signer := [] }] }

/-- An authoritative NOERROR NODATA answer carrying NSEC3. -/
def pktNodata : Pkt :=
  { qname := [5], qtype := 1, rcode := KNOT_RCODE_NOERROR, aa := true,
    has_dnssec := true, answer := [], authority := [nsec3RR], additional := [] }

/-- An NXDOMAIN answer carrying NSEC3. -/
def pktNx : Pkt :=
  { qname := [5], qtype := 1, rcode := KNOT_RCODE_NXDOMAIN, aa := false,
    has_dnssec := true, answer := [], authority := [nsec3RR], additional := [] }

/-- Witness for `C5_nsec3_opt_out` at the opt-out environment `envNF`. -/
theorem C5_nsec3_opt_out_witness :
    nodata_check envNF pktNodata true qryW =
      Except.ok { qryW with flags :=
        { qryW.flags with dnssec_want := false, dnssec_insecure := true } } ∧
    validate envNF pktNx KState.produce
        { qry := qryW, answ_selected := [], auth_selected := [] } =
      some (KState.fail,
        { qry := { qryW with flags := { qryW.flags with dnssec_bogus := true } },
          answ_selected := [], auth_selected := [] }) :=
  ⟨C5_nsec3_opt_out.1 envNF pktNodata qryW (by decide) (by decide) (by decide)
     (by decide) (by decide),
   C5_nsec3_opt_out.2 envNF pktNx KState.produce
     { qry := qryW, answ_selected := [], auth_selected := [] }
     (by decide) (by decide) (by decide) rfl (by decide) (by decide)
     (by decide) (by decide) (by decide)⟩

/-! ## C8 and C10: characterizing `validate_section` -/

/-- The loop of `validate_section` is a per-entry map, with `rrsig_found`
and the wildcard flag the disjunction of per-entry contributions. -/
lemma validate_section_go_eq (env : Env) (vin : VldIn) (rrs : RankedArray) :
    validate_section_go env vin rrs =
      (rrs.map (fun e => (validate_section_step env vin e).1),
       rrs.any (fun e => (validate_section_step env vin e).2.1),
       rrs.any (fun e => (validate_section_step env vin e).2.2)) := by
  induction rrs with
  | nil => rfl
  | cons e rest ih => simp [validate_section_go, ih, List.any_cons]

lemma getD_map_of_lt {α β : Type} (f : α → β) (l : List α) (i : Nat)
    (h : i < l.length) (d : β) (d0 : α) :
    (l.map f).getD i d = f (l.getD i d0) := by
  induction l generalizing i with
  | nil => simp at h
  | cons a t ih =>
    cases i with
    | zero => rfl
    | succ n => simpa [List.getD] using ih n (by simpa using h)

lemma step_skip (env : Env) (vin : VldIn) (e : RankedEntry)
    (h : e.rank = VldRank.secure ∨ e.yielded = true) :
    validate_section_step env vin e = (e, false, false) := by
  unfold validate_section_step
  rw [if_pos h]

lemma step_rrsig_rank (env : Env) (vin : VldIn) (e : RankedEntry)
    (h1 : ¬(e.rank = VldRank.secure ∨ e.yielded = true))
    (h2 : e.rr.rtype = KNOT_RRTYPE_RRSIG) :
    (validate_section_step env vin e).1.rank =
      (if knot_rrsig_signer_name e.rr.rrs = vin.zone_name
       then VldRank.secure else VldRank.mismatch) := by
  unfold validate_section_step
  rw [if_neg h1, if_pos h2]
  by_cases heq : knot_rrsig_signer_name e.rr.rrs = vin.zone_name
  · rw [if_pos (by simp [knot_dname_is_equal, heq]), if_pos heq]
  · rw [if_neg (by simp [knot_dname_is_equal]; exact fun hh => heq hh.symm),
      if_neg heq]

lemma step_ns (env : Env) (vin : VldIn) (e : RankedEntry)
    (h1 : ¬(e.rank = VldRank.secure ∨ e.yielded = true))
    (h2 : e.rr.rtype ≠ KNOT_RRTYPE_RRSIG)
    (h3 : e.rr.rtype = KNOT_RRTYPE_NS ∧ vin.section_id = KNOT_AUTHORITY) :
    (validate_section_step env vin e).1 = { e with rank := VldRank.secure } := by
  unfold validate_section_step
  rw [if_neg h1, if_neg h2, if_pos h3]

lemma step_other (env : Env) (vin : VldIn) (e : RankedEntry)
    (h1 : ¬(e.rank = VldRank.secure ∨ e.yielded = true))
    (h2 : e.rr.rtype ≠ KNOT_RRTYPE_RRSIG)
    (h3 : ¬(e.rr.rtype = KNOT_RRTYPE_NS ∧ vin.section_id = KNOT_AUTHORITY)) :
    ((validate_section_step env vin e).1.rank = VldRank.secure ↔
      (env.kr_rrset_validate vin e.rr).1 = kr_ok) := by
  unfold validate_section_step
  rw [if_neg h1, if_neg h2, if_neg h3]
  by_cases hv : (env.kr_rrset_validate vin e.rr).1 = kr_ok
  · simp [hv]
  · rw [if_neg hv]
    split_ifs <;> simp [hv]

/-- A throwaway entry used as the `List.getD` default. -/
def dummy_entry : RankedEntry :=
  { rank := VldRank.initial, rr := { owner := [], rtype := 0, rrs := [] } }

/-- The updated entry at position `i` of a `validate_section` pass. -/
lemma validate_section_getD (env : Env) (vctx : VldCtx) (rrs : RankedArray)
    (i : Nat) (hi : i < rrs.length) :
    (validate_section env vctx rrs).1.getD i dummy_entry =
      (validate_section_step env (section_vin vctx)
        (rrs.getD i dummy_entry)).1 := by
  show (validate_section_go env (section_vin vctx) rrs).1.getD i dummy_entry = _
  rw [validate_section_go_eq]
  exact getD_map_of_lt _ rrs i hi dummy_entry dummy_entry

/-- Claim C8: During a `validate_section` pass, writing `e` for the entry at
position `i` and `o` for the corresponding output entry: an already-SECURE
or yielded entry is left alone; otherwise an RRSIG is ranked SECURE iff its
signer equals the zone name in force (the DNSKEY owner, see C10) and
MISMATCH otherwise; an NS record in the authority section is ranked SECURE
without verification; any other record is ranked SECURE exactly when
`kr_rrset_validate` returns OK.  Consequently an output entry with rank
SECURE was already SECURE or is one of those three cases. -/
theorem C8_section_ranking (env : Env) (vctx : VldCtx) (rrs : RankedArray)
    (i : Nat) (hi : i < rrs.length) :
    ((rrs.getD i dummy_entry).rank = VldRank.secure ∨
        (rrs.getD i dummy_entry).yielded = true →
      (validate_section env vctx rrs).1.getD i dummy_entry =
        rrs.getD i dummy_entry) ∧
    (¬((rrs.getD i dummy_entry).rank = VldRank.secure ∨
        (rrs.getD i dummy_entry).yielded = true) →
      ((rrs.getD i dummy_entry).rr.rtype = KNOT_RRTYPE_RRSIG →
        ((validate_section env vctx rrs).1.getD i dummy_entry).rank =
          (if knot_rrsig_signer_name (rrs.getD i dummy_entry).rr.rrs =
              vctx.keys.owner
           then VldRank.secure else VldRank.mismatch)) ∧
      ((rrs.getD i dummy_entry).rr.rtype ≠ KNOT_RRTYPE_RRSIG →
        (rrs.getD i dummy_entry).rr.rtype = KNOT_RRTYPE_NS ∧
          vctx.section_id = KNOT_AUTHORITY →
        ((validate_section env vctx rrs).1.getD i dummy_entry).rank =
          VldRank.secure) ∧
      ((rrs.getD i dummy_entry).rr.rtype ≠ KNOT_RRTYPE_RRSIG →
        ¬((rrs.getD i dummy_entry).rr.rtype = KNOT_RRTYPE_NS ∧
            vctx.section_id = KNOT_AUTHORITY) →
        (((validate_section env vctx rrs).1.getD i dummy_entry).rank =
            VldRank.secure ↔
          (env.kr_rrset_validate (section_vin vctx)
            (rrs.getD i dummy_entry).rr).1 = kr_ok))) ∧
    (((validate_section env vctx rrs).1.getD i dummy_entry).rank =
        VldRank.secure →
      (rrs.getD i dummy_entry).rank = VldRank.secure ∨
      ((rrs.getD i dummy_entry).rr.rtype = KNOT_RRTYPE_RRSIG ∧
        knot_rrsig_signer_name (rrs.getD i dummy_entry).rr.rrs =
          vctx.keys.owner) ∨
      ((rrs.getD i dummy_entry).rr.rtype = KNOT_RRTYPE_NS ∧
        vctx.section_id = KNOT_AUTHORITY) ∨
      (env.kr_rrset_validate (section_vin vctx)
        (rrs.getD i dummy_entry).rr).1 = kr_ok) := by
  have ho := validate_section_getD env vctx rrs i hi
  rw [ho]
  refine ⟨?_, ?_, ?_⟩
  · intro h
    rw [step_skip env _ _ h]
  · intro h
    refine ⟨?_, ?_, ?_⟩
    · intro h2
      rw [step_rrsig_rank env _ _ h h2]
      rfl
    · intro h2 h3
      rw [step_ns env _ _ h h2 h3]
    · intro h2 h3
      exact step_other env _ _ h h2 h3
  · intro hsec
    by_cases h : (rrs.getD i dummy_entry).rank = VldRank.secure ∨
        (rrs.getD i dummy_entry).yielded = true
    · left
      rw [step_skip env _ _ h] at hsec
      rcases h with h | h
      · exact h
      · exact hsec
    · by_cases h2 : (rrs.getD i dummy_entry).rr.rtype = KNOT_RRTYPE_RRSIG
      · right; left
        rw [step_rrsig_rank env _ _ h h2] at hsec
        refine ⟨h2, ?_⟩
        simp only [section_vin] at hsec
        split_ifs at hsec with heq
        exact heq
      · by_cases h3 : (rrs.getD i dummy_entry).rr.rtype = KNOT_RRTYPE_NS ∧
            vctx.section_id = KNOT_AUTHORITY
        · right; right; left
          exact h3
        · right; right; right
          exact (step_other env _ _ h h2 h3).mp hsec

/-- Witness for `C8_section_ranking`: an already-SECURE entry is left
untouched by the answer pass. -/
theorem C8_section_ranking_witness :
    (validate_section envOk (records_vctx qryW keyRR KNOT_ANSWER false)
        [{ rank := VldRank.secure, rr := aRR }]).1.getD 0 dummy_entry =
      ([{ rank := VldRank.secure, rr := aRR }] : RankedArray).getD 0
        dummy_entry :=
  (C8_section_ranking envOk (records_vctx qryW keyRR KNOT_ANSWER false)
      [{ rank := VldRank.secure, rr := aRR }] 0 (by decide)).1 (by decide)

/-- Claim C10: `validate_section` overwrites the context's zone name with the
owner of the candidate DNSKEY RRset before classifying records, so (1) its
result does not depend on the zone name handed in — in particular the
restoration of `zone_name` to `qry.zone_cut.name` in `validate_records`
between the two passes has no effect on classification —, (2) the inputs
handed to the collaborators carry `keys->owner` as the zone name, and
(3) RRSIG signer comparison is always against the DNSKEY owner. -/
theorem C10_zone_name (env : Env) (vctx : VldCtx) (z : Dname)
    (rrs : RankedArray) :
    (validate_section env { vctx with zone_name := z } rrs =
      validate_section env vctx rrs) ∧
    ((section_vin vctx).zone_name = vctx.keys.owner) ∧
    (∀ e : RankedEntry, ¬(e.rank = VldRank.secure ∨ e.yielded = true) →
      e.rr.rtype = KNOT_RRTYPE_RRSIG →
      (validate_section_step env (section_vin vctx) e).1.rank =
        (if knot_rrsig_signer_name e.rr.rrs = vctx.keys.owner
         then VldRank.secure else VldRank.mismatch)) := by
  refine ⟨?_, rfl, ?_⟩
  · cases vctx
    rfl
  · intro e h1 h2
    rw [step_rrsig_rank env _ e h1 h2]
    rfl

/-- Witness for `C10_zone_name`: under the answer-pass context the fixture
RRSIG (signer `[5]` = DNSKEY owner) is classified SECURE even though the
context's zone name field was set to `[9]`. -/
theorem C10_zone_name_witness :
    (validate_section_step envOk
        (section_vin (records_vctx qryW keyRR KNOT_ANSWER false))
        { rank := VldRank.initial, rr := sigRR }).1.rank =
      (if knot_rrsig_signer_name sigRR.rrs = keyRR.owner
       then VldRank.secure else VldRank.mismatch) :=
  (C10_zone_name envOk (records_vctx qryW keyRR KNOT_ANSWER false) [9] []).2.2
    { rank := VldRank.initial, rr := sigRR } (by decide) (by decide)

/-! ## C9: idempotency of the DNSKEY merge -/

lemma mem_knot_rdataset_add {s : List Rdata} {x y : Rdata} :
    y ∈ knot_rdataset_add s x ↔ y ∈ s ∨ y = x := by
  unfold knot_rdataset_add
  split_ifs with h
  · constructor
    · exact Or.inl
    · rintro (hy | rfl)
      · exact hy
      · exact h
  · simp

lemma knot_rdataset_add_of_mem {s : List Rdata} {x : Rdata} (h : x ∈ s) :
    knot_rdataset_add s x = s := by
  unfold knot_rdataset_add
  rw [if_pos h]

lemma mem_merge_left {s t : List Rdata} {y : Rdata} (hy : y ∈ s) :
    y ∈ knot_rdataset_merge s t := by
  induction t generalizing s with
  | nil => exact hy
  | cons x t ih => exact ih (mem_knot_rdataset_add.mpr (Or.inl hy))

lemma mem_merge_right {s t : List Rdata} {y : Rdata} (hy : y ∈ t) :
    y ∈ knot_rdataset_merge s t := by
  induction t generalizing s with
  | nil => cases hy
  | cons x t ih =>
    rcases List.mem_cons.mp hy with rfl | hy2
    · show y ∈ knot_rdataset_merge (knot_rdataset_add s y) t
      exact mem_merge_left (mem_knot_rdataset_add.mpr (Or.inr rfl))
    · exact ih hy2

lemma merge_of_subset {s t : List Rdata} (h : ∀ y ∈ t, y ∈ s) :
    knot_rdataset_merge s t = s := by
  induction t generalizing s with
  | nil => rfl
  | cons x t ih =>
    show knot_rdataset_merge (knot_rdataset_add s x) t = s
    rw [knot_rdataset_add_of_mem (h x (List.mem_cons_self x t))]
    exact ih (fun y hy => h y (List.mem_cons_of_mem x hy))

/-- The rdata accumulation performed by a run of consecutive same-owner
merges of the DNSKEY loop. -/
def merge_into (x : RRset) (m : List RRset) : RRset :=
  m.foldl (fun acc rr => { acc with rrs := knot_rdataset_merge acc.rrs rr.rrs }) x

lemma merge_into_owner (x : RRset) (m : List RRset) :
    (merge_into x m).owner = x.owner := by
  induction m generalizing x with
  | nil => rfl
  | cons rr m ih => exact ih _

lemma merge_into_rrs_mono {x : RRset} {m : List RRset} {y : Rdata}
    (hy : y ∈ x.rrs) : y ∈ (merge_into x m).rrs := by
  induction m generalizing x with
  | nil => exact hy
  | cons rr m ih => exact ih (mem_merge_left hy)

lemma merge_into_rrs_of_mem {x : RRset} {m : List RRset} {rr : RRset}
    (hrr : rr ∈ m) {y : Rdata} (hy : y ∈ rr.rrs) :
    y ∈ (merge_into x m).rrs := by
  induction m generalizing x with
  | nil => cases hrr
  | cons r0 m ih =>
    rcases List.mem_cons.mp hrr with rfl | h2
    · show y ∈ (merge_into
        { x with rrs := knot_rdataset_merge x.rrs rr.rrs } m).rrs
      exact merge_into_rrs_mono (mem_merge_right hy)
    · exact ih h2

lemma merge_into_absorb {x : RRset} {m : List RRset}
    (h : ∀ rr ∈ m, ∀ y ∈ rr.rrs, y ∈ x.rrs) :
    merge_into x m = x := by
  induction m generalizing x with
  | nil => rfl
  | cons rr m ih =>
    show merge_into { x with rrs := knot_rdataset_merge x.rrs rr.rrs } m = x
    rw [merge_of_subset (h rr (List.mem_cons_self rr m))]
    exact ih (fun r hr => h r (List.mem_cons_of_mem rr hr))

/-- Helper: `keyset_core` always yields a key owned by the processed record, whose
rdata contains the record's rdata. -/
lemma keyset_core_some (k : Option RRset) (rr : RRset) :
    ∃ x, keyset_core k rr = some x ∧ x.owner = rr.owner ∧
      ∀ y ∈ rr.rrs, y ∈ x.rrs := by
  cases k with
  | none => exact ⟨rr, rfl, rfl, fun y hy => hy⟩
  | some kk =>
    by_cases h : knot_dname_is_equal kk.owner rr.owner = true
    · refine ⟨{ kk with rrs := knot_rdataset_merge kk.rrs rr.rrs },
        by simp [keyset_core, h], ?_, fun y hy => mem_merge_right hy⟩
      simpa [knot_dname_is_equal] using h
    · exact ⟨rr, by simp [keyset_core, h], rfl, fun y hy => hy⟩

/-- Two same-owner starting keys either make the DNSKEY loop converge to
the same result, or the whole list shares their owner and both runs are
pure rdata accumulations. -/
lemma keyset_core_sync (m : List RRset) : ∀ (x y : RRset), x.owner = y.owner →
    List.foldl keyset_core (some x) m = List.foldl keyset_core (some y) m ∨
    ((∀ rr ∈ m, rr.owner = x.owner) ∧
     List.foldl keyset_core (some x) m = some (merge_into x m) ∧
     List.foldl keyset_core (some y) m = some (merge_into y m)) := by
  induction m with
  | nil => exact fun x y _ => Or.inr ⟨by simp, rfl, rfl⟩
  | cons rr m ih =>
    intro x y hxy
    by_cases h : rr.owner = x.owner
    · have hx : keyset_core (some x) rr =
          some { x with rrs := knot_rdataset_merge x.rrs rr.rrs } := by
        simp [keyset_core, knot_dname_is_equal, h.symm]
      have hy : keyset_core (some y) rr =
          some { y with rrs := knot_rdataset_merge y.rrs rr.rrs } := by
        have : y.owner = rr.owner := by rw [← hxy, h]
        simp [keyset_core, knot_dname_is_equal, this]
      have hstepx : List.foldl keyset_core (some x) (rr :: m) =
          List.foldl keyset_core
            (some { x with rrs := knot_rdataset_merge x.rrs rr.rrs }) m := by
        show List.foldl keyset_core (keyset_core (some x) rr) m = _
        rw [hx]
      have hstepy : List.foldl keyset_core (some y) (rr :: m) =
          List.foldl keyset_core
            (some { y with rrs := knot_rdataset_merge y.rrs rr.rrs }) m := by
        show List.foldl keyset_core (keyset_core (some y) rr) m = _
        rw [hy]
      rcases ih { x with rrs := knot_rdataset_merge x.rrs rr.rrs }
          { y with rrs := knot_rdataset_merge y.rrs rr.rrs } hxy with
          hl | ⟨hall, hxm, hym⟩
      · left
        rw [hstepx, hstepy, hl]
      · right
        refine ⟨?_, ?_, ?_⟩
        · intro r hr
          rcases List.mem_cons.mp hr with rfl | h2
          · exact h
          · exact hall r h2
        · rw [hstepx, hxm]; rfl
        · rw [hstepy, hym]; rfl
    · have hx : keyset_core (some x) rr = some rr := by
        have hne : ¬ knot_dname_is_equal x.owner rr.owner = true := by
          simp only [knot_dname_is_equal, decide_eq_true_eq]
          exact fun hh => h hh.symm
        simp [keyset_core, hne]
      have hy : keyset_core (some y) rr = some rr := by
        have hne : ¬ knot_dname_is_equal y.owner rr.owner = true := by
          simp only [knot_dname_is_equal, decide_eq_true_eq]
          rw [← hxy]
          exact fun hh => h hh.symm
        simp [keyset_core, hne]
      left
      show List.foldl keyset_core (keyset_core (some x) rr) m =
        List.foldl keyset_core (keyset_core (some y) rr) m
      rw [hx, hy]

/-- Re-running the merge-or-replace fold on its own result is the
identity. -/
lemma keyset_core_idem (m0 : List RRset) (k : Option RRset) :
    List.foldl keyset_core (List.foldl keyset_core k m0) m0 =
      List.foldl keyset_core k m0 := by
  cases m0 with
  | nil => rfl
  | cons rr m =>
    obtain ⟨y, hy, hyo, hysub⟩ := keyset_core_some k rr
    have hfold : List.foldl keyset_core k (rr :: m) =
        List.foldl keyset_core (some y) m := by
      show List.foldl keyset_core (keyset_core k rr) m = _
      rw [hy]
    rw [hfold]
    obtain ⟨x, hx, hxo, hxsub⟩ :=
      keyset_core_some (List.foldl keyset_core (some y) m) rr
    have hfold2 : List.foldl keyset_core
        (List.foldl keyset_core (some y) m) (rr :: m) =
        List.foldl keyset_core (some x) m := by
      show List.foldl keyset_core
        (keyset_core (List.foldl keyset_core (some y) m) rr) m = _
      rw [hx]
    rw [hfold2]
    have hxy : x.owner = y.owner := by rw [hxo, hyo]
    rcases keyset_core_sync m x y hxy with hsync | ⟨hall, hxm, hym⟩
    · rw [hsync]
    · -- every record of `m` (and `rr`) shares the final owner; both runs
      -- are pure accumulations and the second absorbs into the first
      have howner : (merge_into y m).owner = rr.owner := by
        rw [merge_into_owner, hyo]
      have hcond : knot_dname_is_equal (merge_into y m).owner rr.owner = true := by
        simp [knot_dname_is_equal, howner]
      have hsubs : knot_rdataset_merge (merge_into y m).rrs rr.rrs =
          (merge_into y m).rrs :=
        merge_of_subset (fun z hz => merge_into_rrs_mono (hysub z hz))
      have hxeq : x = merge_into y m := by
        rw [hym] at hx
        have hx2 : some { merge_into y m with
            rrs := knot_rdataset_merge (merge_into y m).rrs rr.rrs } = some x := by
          rw [← hx]
          simp [keyset_core, hcond]
        have hx3 := Option.some.inj hx2
        rw [← hx3, hsubs]
      rw [hxm, hym, hxeq]
      congr 1
      exact merge_into_absorb (fun r hr z hz => merge_into_rrs_of_mem hr hz)

/-- Every `keyset_step` is `keyset_core` gated by `keyset_matches`. -/
lemma keyset_step_eq_core (cut_name : Dname) (key : Option RRset)
    (rr : RRset) :
    keyset_step cut_name key rr =
      (if keyset_matches cut_name rr = true then keyset_core key rr else key) := by
  unfold keyset_step keyset_matches
  by_cases h1 : rr.rtype = KNOT_RRTYPE_DNSKEY
  · by_cases h2 : knot_dname_in cut_name rr.owner = true
    · simp [h1, h2]
    · simp [h1, h2]
  · simp [h1]

/-- The DNSKEY-merge loop equals the merge-or-replace fold over the
filtered (DNSKEY, at/below the cut) records. -/
lemma foldl_keyset_filter (cut_name : Dname) (key : Option RRset)
    (an : List RRset) :
    an.foldl (keyset_step cut_name) key =
      (an.filter (keyset_matches cut_name)).foldl keyset_core key := by
  induction an generalizing key with
  | nil => rfl
  | cons rr an ih =>
    by_cases h : keyset_matches cut_name rr = true
    · rw [List.foldl_cons, keyset_step_eq_core, if_pos h,
        List.filter_cons_of_pos h, List.foldl_cons]
      exact ih _
    · rw [List.foldl_cons, keyset_step_eq_core, if_neg h,
        List.filter_cons_of_neg (by simpa using h)]
      exact ih _

/-- Claim C9: Running the key-set merge loop of `validate_keyset` a second
time with the same answer section leaves the cut's key — in particular
`cut.key.rrs` — exactly as after the first run: the merge is idempotent. -/
theorem C9_keyset_idempotent (cut_name : Dname) (key : Option RRset)
    (an : List RRset) :
    validate_keyset_merge cut_name
        (validate_keyset_merge cut_name key an).1 an =
      validate_keyset_merge cut_name key an := by
  show (an.foldl (keyset_step cut_name) (an.foldl (keyset_step cut_name) key),
        an.any (keyset_matches cut_name)) =
       (an.foldl (keyset_step cut_name) key, an.any (keyset_matches cut_name))
  rw [foldl_keyset_filter, foldl_keyset_filter, keyset_core_idem]

/-! ## C2: DONE implies every non-yielded record is SECURE -/

/-- Helper: `rrsig_not_found` never reports DONE. -/
lemma rrsig_not_found_ne_done {state : KState} {qry : Query} {rr : RRset}
    {p : KState × Query} (h : rrsig_not_found state qry rr = some p) :
    p.1 ≠ KState.done := by
  simp only [rrsig_not_found] at h
  split_ifs at h with h1 h2 h3
  · cases h
    simp
  · cases h
    simp
  · revert h
    cases qry.cut_parents.find?
        (fun c => knot_dname_is_equal
          (rr.owner.drop ((↑(knot_dname_labels rr.owner) -
            ↑(knot_dname_matched_labels qry.zone_cut.name rr.owner) -
              1 : Int).toNat)) c.name) <;>
      intro h <;> cases h <;> simp

/-- The second loop of `check_validation_result` reports DONE only when
every non-yielded entry is SECURE. -/
lemma cvr_problems_done {state : KState} {qry : Query} {q2 : Query} :
    ∀ {arr : RankedArray},
      cvr_problems state qry arr = some (KState.done, q2) →
      ∀ e ∈ arr, e.yielded = false → e.rank = VldRank.secure := by
  intro arr
  induction arr with
  | nil => intro _ e he; cases he
  | cons e rest ih =>
    intro h e2 he2 hy
    unfold cvr_problems at h
    split_ifs at h with h1 h2 h3
    · rcases List.mem_cons.mp he2 with rfl | hm
      · rw [h1] at hy; cases hy
      · exact ih h e2 hm hy
    · exact absurd rfl (rrsig_not_found_ne_done h)
    · simp at h
    · rcases List.mem_cons.mp he2 with rfl | hm
      · exact not_not.mp h3
      · exact ih h e2 hm hy

/-- Helper: `check_validation_result` reports DONE only when every non-yielded
entry is SECURE. -/
lemma cvr_done {state : KState} {qry : Query} {arr : RankedArray} {q2 : Query}
    (h : check_validation_result state qry arr = some (KState.done, q2)) :
    ∀ e ∈ arr, e.yielded = false → e.rank = VldRank.secure := by
  unfold check_validation_result at h
  cases hm : cvr_find_mismatch arr with
  | some e0 => rw [hm] at h; simp at h
  | none => rw [hm] at h; exact cvr_problems_done h

/-- Helper: `check_signer` does not touch the CACHED flag. -/
lemma check_signer_cached (state : KState) (qry : Query)
    (a b : RankedArray) :
    (check_signer state qry a b).2.flags.cached = qry.flags.cached := by
  unfold check_signer
  cases qry.zone_cut.trust_anchor with
  | none => rfl
  | some ta =>
    dsimp only [Option.map]
    split_ifs with h1 h2
    · rfl
    · cases signature_authority a b with
      | none => rfl
      | some s =>
        dsimp only
        split_ifs with h3 h4
        · rfl
        · cases qry.cut_parents with
          | nil => rfl
          | cons p rest => rfl
        · rfl
    · rfl

/-- Helper: `validate_keyset` does not touch the CACHED flag. -/
lemma validate_keyset_cached (env : Env) (qry : Query) (pkt : Pkt)
    (hn : Bool) :
    (validate_keyset env qry pkt hn).1.flags.cached = qry.flags.cached := by
  simp only [validate_keyset]
  split_ifs with h1
  · cases (validate_keyset_merge qry.zone_cut.name qry.zone_cut.key
        pkt.answer).1 with
    | none => rfl
    | some k =>
      dsimp only
      split_ifs <;> rfl
  · rfl

/-- A DNSKEY stage that continues does not touch the CACHED flag. -/
lemma dnskey_stage_ok_cached {env : Env} {pkt : Pkt} {state : KState}
    {hn : Bool} {a b : RankedArray} {qry q1 : Query}
    (h : dnskey_stage env pkt state hn a b qry = Except.ok q1) :
    q1.flags.cached = qry.flags.cached := by
  simp only [dnskey_stage] at h
  split_ifs at h
  all_goals cases h
  all_goals first
    | rfl
    | rw [validate_keyset_cached, check_signer_cached]
    | rw [validate_keyset_cached]

/-- A DNSKEY stage that stops never reports DONE. -/
lemma dnskey_stage_error_ne_done {env : Env} {pkt : Pkt} {state : KState}
    {hn : Bool} {a b : RankedArray} {qry : Query} {e : KState × Query}
    (h : dnskey_stage env pkt state hn a b qry = Except.error e) :
    e.1 ≠ KState.done := by
  simp only [dnskey_stage] at h
  split_ifs at h with h1 h2
  all_goals cases h
  all_goals first
    | exact h2.2
    | simp

/-- An NXDOMAIN stage that continues leaves the query unchanged. -/
lemma nxdomain_check_ok {env : Env} {pkt : Pkt} {hn : Bool} {qry q1 : Query}
    (h : nxdomain_check env pkt hn qry = Except.ok q1) : q1 = qry := by
  simp only [nxdomain_check] at h
  split_ifs at h <;> cases h <;> rfl

/-- A NODATA stage that continues does not touch the CACHED flag. -/
lemma nodata_check_ok_cached {env : Env} {pkt : Pkt} {hn : Bool}
    {qry q1 : Query} (h : nodata_check env pkt hn qry = Except.ok q1) :
    q1.flags.cached = qry.flags.cached := by
  simp only [nodata_check] at h
  split_ifs at h <;> cases h <;> rfl

/-- Helper: `validate_finish` keeps the answer array and at most marks the
authority array for the wire. -/
lemma validate_finish_arrays (env : Env) (pkt : Pkt) (hn : Bool)
    (st : RState) :
    (validate_finish env pkt hn st).2.answ_selected = st.answ_selected ∧
    ((validate_finish env pkt hn st).2.auth_selected = st.auth_selected ∨
     (validate_finish env pkt hn st).2.auth_selected =
       set_wire_all st.auth_selected) := by
  by_cases hud : (update_delegation env st.qry pkt hn).2 = kr_ok <;>
    simp [validate_finish, update_parent_keys, hud] <;> split_ifs <;> simp

/-- Members of `set_wire_all arr` keep their rank and `yielded` bit. -/
lemma mem_set_wire_all {arr : RankedArray} {e : RankedEntry}
    (h : e ∈ set_wire_all arr) :
    ∃ e0 ∈ arr, e.rank = e0.rank ∧ e.yielded = e0.yielded := by
  rcases List.mem_map.mp h with ⟨e0, he0, rfl⟩
  exact ⟨e0, he0, rfl, rfl⟩

/-- A DS RRset for the fixture child zone `[9,5]`. -/
def dsRR : RRset :=
  { owner := [9, 5], rtype := KNOT_RRTYPE_DS, rrs := [{ val := 3, signer := [] }] }

/-- The fixture query marked CACHED. -/
def qryCached : Query :=
  { qryW with flags := { dnssec_want := true, cached := true } }

/-- A referral whose authority section carries a DS record. -/
def pktRef : Pkt :=
  { qname := [9, 5], qtype := 1, rcode := KNOT_RCODE_NOERROR, aa := false,
    has_dnssec := true, answer := [], authority := [dsRR], additional := [] }

/-- Claim C2: is false as stated: for a CACHED query `consume` skips record
validation entirely (line 610) and returns DONE while a non-yielded record
still has rank INITIAL. -/
theorem C2_counterexample :
    (validate envOk pktRef KState.produce
        { qry := qryCached,
          answ_selected := [{ rank := VldRank.initial, rr := aRR }],
          auth_selected := [] }).map
      (fun r => (r.1, r.2.answ_selected.map RankedEntry.rank,
                 r.2.answ_selected.map RankedEntry.yielded)) =
    some (KState.done, [VldRank.initial], [false]) := by decide

/-- Claim C2, amended: For every invocation of `consume` on a query that
wants DNSSEC, is not in stub mode and is not CACHED: if it returns DONE,
every non-yielded ranked record in the final answer-selected and
authority-selected arrays has rank SECURE. -/
theorem C2_all_secure (env : Env) (pkt : Pkt) (state : KState) (st : RState)
    (s : KState) (st2 : RState)
    (hw : st.qry.flags.dnssec_want = true)
    (hst : st.qry.flags.is_stub ≠ true)
    (hc : st.qry.flags.cached ≠ true)
    (hv : validate env pkt state st = some (s, st2))
    (hs : s = KState.done) :
    ∀ e : RankedEntry,
      (e ∈ st2.answ_selected ∨ e ∈ st2.auth_selected) →
      e.yielded = false → e.rank = VldRank.secure := by
  subst hs
  simp only [validate] at hv
  by_cases h1 : state = KState.fail ∨ state = KState.consume
  · rw [if_pos h1] at hv
    have h2 := (Prod.mk.injEq _ _ _ _).mp (Option.some.inj hv)
    rcases h1 with h1 | h1 <;> rw [h1] at h2 <;> cases h2.1
  rw [if_neg h1, if_neg (not_or.mpr ⟨not_not.mpr hw, hst⟩)] at hv
  by_cases h3 : st.qry.flags.cached ≠ true ∧ pkt.has_dnssec ≠ true ∧
      ¬(pkt.qtype ≠ KNOT_RRTYPE_RRSIG)
  · rw [if_pos h3] at hv
    cases ((Prod.mk.injEq _ _ _ _).mp (Option.some.inj hv)).1
  rw [if_neg h3] at hv
  cases hd : dnskey_stage env pkt state (pkt_has_type pkt KNOT_RRTYPE_NSEC3)
      st.answ_selected st.auth_selected st.qry with
  | error e0 =>
    rw [hd] at hv
    dsimp only at hv
    exact absurd ((Prod.mk.injEq _ _ _ _).mp (Option.some.inj hv)).1
      (dnskey_stage_error_ne_done hd)
  | ok qry1 =>
    rw [hd] at hv
    dsimp only at hv
    cases hx : nxdomain_check env pkt (pkt_has_type pkt KNOT_RRTYPE_NSEC3)
        qry1 with
    | error q =>
      rw [hx] at hv
      dsimp only at hv
      cases ((Prod.mk.injEq _ _ _ _).mp (Option.some.inj hv)).1
    | ok qry2 =>
      rw [hx] at hv
      dsimp only at hv
      cases hn2 : nodata_check env pkt (pkt_has_type pkt KNOT_RRTYPE_NSEC3)
          qry2 with
      | error q =>
        rw [hn2] at hv
        dsimp only at hv
        cases ((Prod.mk.injEq _ _ _ _).mp (Option.some.inj hv)).1
      | ok qry3 =>
        rw [hn2] at hv
        dsimp only at hv
        have hc3 : qry3.flags.cached ≠ true := by
          rw [nodata_check_ok_cached hn2, nxdomain_check_ok hx,
            dnskey_stage_ok_cached hd]
          exact hc
        rw [if_pos hc3] at hv
        by_cases h5 : (validate_records env qry3 st.answ_selected
            st.auth_selected (pkt_has_type pkt KNOT_RRTYPE_NSEC3)).2.2.2 =
            kr_error ENOENT
        · rw [if_pos h5] at hv
          cases ((Prod.mk.injEq _ _ _ _).mp (Option.some.inj hv)).1
        rw [if_neg h5] at hv
        by_cases h6 : (validate_records env qry3 st.answ_selected
            st.auth_selected (pkt_has_type pkt KNOT_RRTYPE_NSEC3)).2.2.2 ≠
            kr_ok
        · rw [if_pos h6] at hv
          cases ((Prod.mk.injEq _ _ _ _).mp (Option.some.inj hv)).1
        rw [if_neg h6] at hv
        cases hr1 : check_validation_result state
            (validate_records env qry3 st.answ_selected st.auth_selected
              (pkt_has_type pkt KNOT_RRTYPE_NSEC3)).2.2.1
            (validate_records env qry3 st.answ_selected st.auth_selected
              (pkt_has_type pkt KNOT_RRTYPE_NSEC3)).1 with
        | none =>
          rw [hr1] at hv
          cases hv
        | some r1 =>
          rw [hr1] at hv
          dsimp only at hv
          by_cases h7 : r1.1 ≠ KState.done
          · rw [if_pos h7] at hv
            exact absurd ((Prod.mk.injEq _ _ _ _).mp (Option.some.inj hv)).1 h7
          rw [if_neg h7] at hv
          cases hr2 : check_validation_result state r1.2
              (validate_records env qry3 st.answ_selected st.auth_selected
                (pkt_has_type pkt KNOT_RRTYPE_NSEC3)).2.1 with
          | none =>
            rw [hr2] at hv
            cases hv
          | some r2 =>
            rw [hr2] at hv
            dsimp only at hv
            by_cases h8 : r2.1 ≠ KState.done
            · rw [if_pos h8] at hv
              exact absurd
                ((Prod.mk.injEq _ _ _ _).mp (Option.some.inj hv)).1 h8
            rw [if_neg h8] at hv
            have hr1d : check_validation_result state
                (validate_records env qry3 st.answ_selected st.auth_selected
                  (pkt_has_type pkt KNOT_RRTYPE_NSEC3)).2.2.1
                (validate_records env qry3 st.answ_selected st.auth_selected
                  (pkt_has_type pkt KNOT_RRTYPE_NSEC3)).1 =
                some (KState.done, r1.2) := by
              rw [hr1, ← not_not.mp h7]
            have hr2d : check_validation_result state r1.2
                (validate_records env qry3 st.answ_selected st.auth_selected
                  (pkt_has_type pkt KNOT_RRTYPE_NSEC3)).2.1 =
                some (KState.done, r2.2) := by
              rw [hr2, ← not_not.mp h8]
            have hAns := cvr_done hr1d
            have hAuth := cvr_done hr2d
            have hst2 : st2 =
                (validate_finish env pkt (pkt_has_type pkt KNOT_RRTYPE_NSEC3)
                  { qry := r2.2,
                    answ_selected := (validate_records env qry3
                      st.answ_selected st.auth_selected
                      (pkt_has_type pkt KNOT_RRTYPE_NSEC3)).1,
                    auth_selected := (validate_records env qry3
                      st.answ_selected st.auth_selected
                      (pkt_has_type pkt KNOT_RRTYPE_NSEC3)).2.1 }).2 :=
              (congrArg Prod.snd (Option.some.inj hv)).symm
            intro e hmem hy
            obtain ⟨hansEq, hauthOr⟩ := validate_finish_arrays env pkt
              (pkt_has_type pkt KNOT_RRTYPE_NSEC3)
              { qry := r2.2,
                answ_selected := (validate_records env qry3 st.answ_selected
                  st.auth_selected (pkt_has_type pkt KNOT_RRTYPE_NSEC3)).1,
                auth_selected := (validate_records env qry3 st.answ_selected
                  st.auth_selected (pkt_has_type pkt KNOT_RRTYPE_NSEC3)).2.1 }
            rw [hst2] at hmem
            rcases hmem with hm | hm
            · rw [hansEq] at hm
              exact hAns e hm hy
            · rcases hauthOr with hEq | hEq
              · rw [hEq] at hm
                exact hAuth e hm hy
              · rw [hEq] at hm
                obtain ⟨e0, he0, hrank, hyield⟩ := mem_set_wire_all hm
                rw [hrank]
                rw [hyield] at hy
                exact hAuth e0 he0 hy

/-- Witness for `C2_all_secure`: a complete non-cached DONE run (the C1
fixture) in which the single answer record ends up SECURE. -/
theorem C2_all_secure_witness :
    ({ rank := VldRank.secure, rr := sigRR } : RankedEntry).rank =
      VldRank.secure :=
  C2_all_secure envOk pktNoDO KState.produce
    { qry := qryW,
      answ_selected := [{ rank := VldRank.initial, rr := sigRR }],
      auth_selected := [] }
    KState.done
    { qry := qryW,
      answ_selected := [{ rank := VldRank.secure, rr := sigRR }],
      auth_selected := [] }
    (by decide) (by decide) (by decide) (by decide) rfl
    { rank := VldRank.secure, rr := sigRR }
    (Or.inl (by decide)) (by decide)
